import Mathlib

/-!
# LegacyPlugin_WiFiManagerAPIs.h

A shallow embedding of the declarations of `LegacyPlugin_WiFiManagerAPIs.h`
(the legacy `WiFiManager` adapter of the NetworkManager plugin): the two
enumerations, the credential structure with its buffer bounds, the declared
method surface and the private data members of the class.

The header carries declarations only.  The bodies of the handlers, of
`ErrorCodeMapping` and of the event subscription are not part of it; where a
property depends on them they are modelled from the written specification, and
every such definition says so in its doc comment.
-/

namespace WiFiManagerAPIs

/-! ## Enumerations (header lines 27-36 and 45-54) -/

/-- Legacy error code, `typedef enum _WiFiErrorCode_t`, in declaration order. -/
inductive WiFiErrorCode_t where
  | WIFI_SSID_CHANGED
  | WIFI_CONNECTION_LOST
  | WIFI_CONNECTION_FAILED
  | WIFI_CONNECTION_INTERRUPTED
  | WIFI_INVALID_CREDENTIALS
  | WIFI_NO_SSID
  | WIFI_UNKNOWN
  | WIFI_AUTH_FAILED
  deriving DecidableEq, Repr

/-- Numeric value of an enumerator of `WiFiErrorCode_t`: no enumerator has an
initialiser, so the values count up from zero in declaration order. -/
def WiFiErrorCode_t.toNat : WiFiErrorCode_t → Nat
  | .WIFI_SSID_CHANGED => 0
  | .WIFI_CONNECTION_LOST => 1
  | .WIFI_CONNECTION_FAILED => 2
  | .WIFI_CONNECTION_INTERRUPTED => 3
  | .WIFI_INVALID_CREDENTIALS => 4
  | .WIFI_NO_SSID => 5
  | .WIFI_UNKNOWN => 6
  | .WIFI_AUTH_FAILED => 7

/-- WIFI API return status, `typedef enum _WIFI_API_RESULT`, in declaration
order, the sentinel `WIFI_API_RESULT_MAX` included. -/
inductive WIFI_API_RESULT where
  | WIFI_API_RESULT_SUCCESS
  | WIFI_API_RESULT_FAILED
  | WIFI_API_RESULT_NULL_PARAM
  | WIFI_API_RESULT_INVALID_PARAM
  | WIFI_API_RESULT_NOT_INITIALIZED
  | WIFI_API_RESULT_OPERATION_NOT_SUPPORTED
  | WIFI_API_RESULT_READ_WRITE_FAILED
  | WIFI_API_RESULT_MAX
  deriving DecidableEq, Repr

/-- Numeric value of an enumerator of `WIFI_API_RESULT`: the first is given the
initialiser `0`, the others count up from it. -/
def WIFI_API_RESULT.toNat : WIFI_API_RESULT → Nat
  | .WIFI_API_RESULT_SUCCESS => 0
  | .WIFI_API_RESULT_FAILED => 1
  | .WIFI_API_RESULT_NULL_PARAM => 2
  | .WIFI_API_RESULT_INVALID_PARAM => 3
  | .WIFI_API_RESULT_NOT_INITIALIZED => 4
  | .WIFI_API_RESULT_OPERATION_NOT_SUPPORTED => 5
  | .WIFI_API_RESULT_READ_WRITE_FAILED => 6
  | .WIFI_API_RESULT_MAX => 7

/-! ## Credential structure (header lines 38-39 and 59-63) -/

/-- The macro `SSID_SIZE`. -/
def SSID_SIZE : Nat := 32

/-- The macro `WIFI_MAX_PASSWORD_LEN`. -/
def WIFI_MAX_PASSWORD_LEN : Nat := 64

/-- Number of bytes of the array `char cSSID[SSID_SIZE+1]`. -/
def cSSID_capacity : Nat := SSID_SIZE + 1

/-- Number of bytes of the array `char cPassword[WIFI_MAX_PASSWORD_LEN+1]`. -/
def cPassword_capacity : Nat := WIFI_MAX_PASSWORD_LEN + 1

/-- A C string of `len` bytes is stored with one terminating NUL byte; it fits
in a `char` array of `capacity` bytes when both are within the array. -/
def fitsWithNul (len capacity : Nat) : Bool := decide (len + 1 ≤ capacity)

/-- The character NUL, which terminates a C string. -/
def NUL : Char := Char.ofNat 0

/-- Whether a string has no NUL character in it.  (In UTF-8 the byte 0 occurs
only as the encoding of the character NUL.) -/
def noNul (s : String) : Bool := s.data.all (fun c => decide (c ≠ NUL))

/-- What reading a string as a C string keeps of it: the characters before the
first NUL. -/
def beforeNul (s : String) : String := ⟨s.data.takeWhile (fun c => decide (c ≠ NUL))⟩

/-- The contents a `char` array of `capacity` bytes can hold as a NUL-terminated
C string: the bytes before the terminating NUL, none of them NUL, which fit in
the array together with the terminator. -/
abbrev CString (capacity : Nat) : Type :=
  { s : String // noNul s = true ∧ fitsWithNul s.utf8ByteSize capacity = true }

/-- Copy of a string into a `char` array of `capacity` bytes as a C string, for a
string that fits with its terminator: the characters before the first NUL. -/
def CString.copy (capacity : Nat) (s : String) (h : s.utf8ByteSize + 1 ≤ capacity) :
    CString capacity :=
  ⟨beforeNul s, List.all_takeWhile, by
    have hlen := congrArg String.utf8Len
      (List.takeWhile_append_dropWhile (fun c => decide (c ≠ NUL)) s.data)
    rw [String.utf8Len_append] at hlen
    have hsize : s.utf8ByteSize = String.utf8Len s.data := String.utf8ByteSize_mk s.data
    simp only [fitsWithNul, beforeNul, String.utf8ByteSize_mk, decide_eq_true_eq]
    omega⟩

/-- Least value of the C type `int`, taken as 32 bits wide in two's
complement. -/
def INT_MIN : Int := -2147483648

/-- Greatest value of the C type `int`, taken as 32 bits wide. -/
def INT_MAX : Int := 2147483647

/-- The values of the C type `int`. -/
abbrev CInt : Type := { x : Int // INT_MIN ≤ x ∧ x ≤ INT_MAX }

/-- Conversion of an integer to `int`: the value itself when it is in range,
reduced modulo `2^32` into the range otherwise. -/
def CInt.ofInt (x : Int) : CInt :=
  ⟨(x + 2147483648) % 4294967296 - 2147483648, by
    constructor
    · show (-2147483648 : Int) ≤ _
      omega
    · show _ ≤ (2147483647 : Int)
      omega⟩

/-- The struct `WIFI_DATA`: two `char` arrays of `SSID_SIZE+1` and
`WIFI_MAX_PASSWORD_LEN+1` bytes holding C strings, and the `int` security
mode. -/
structure WIFI_DATA where
  cSSID : CString cSSID_capacity
  cPassword : CString cPassword_capacity
  iSecurityMode : CInt
  deriving DecidableEq, Repr

/-! ## Declared method surface (header lines 98-117) -/

/-- The handlers declared between `//Begin methods` and `//End methods`, in
declaration order.  The argument is whether `ENABLE_GET_WIFI_CREDENTIALS` is
defined: the declaration of `retrieveSSID` stands inside that `#ifdef`. -/
def declaredMethods (enableGetWifiCredentials : Bool) : List String :=
  ["getCurrentState", "startScan", "stopScan", "getConnectedSSID", "setEnabled",
   "connect", "disconnect", "initiateWPSPairing", "cancelWPSPairing", "saveSSID",
   "clearSSID", "getPairedSSID", "getPairedSSIDInfo", "isPaired",
   "getSupportedSecurityModes"]
  ++ (if enableGetWifiCredentials then ["retrieveSSID"] else [])

/-! ## Private data members (header lines 145-151) -/

/-- The types of the private data members of `WiFiManager`. -/
inductive MemberType where
  /-- `PluginHost::IShell*` -/
  | shellPointer
  /-- `std::shared_ptr<JSONRPC::SmartLinkType<Core::JSON::IElement>>` -/
  | smartLinkPointer
  /-- `NetworkManagerTimer` -/
  | networkManagerTimer
  /-- `bool` -/
  | bool
  deriving DecidableEq, Repr

/-- The private data members of `WiFiManager`, name and type, in declaration
order. -/
def dataMembers : List (String × MemberType) :=
  [("m_service", .shellPointer),
   ("m_networkmanager", .smartLinkPointer),
   ("m_timer", .networkManagerTimer),
   ("m_subsWiFiStateChange", .bool),
   ("m_subsAvailableSSIDs", .bool),
   ("m_subsWiFiStrengthChange", .bool)]

/-- The names of the data members of a given type. -/
def membersOfType (t : MemberType) : List String :=
  (dataMembers.filter (fun m => decide (m.2 = t))).map (fun m => m.1)

/-! ## Behaviour modelled from the specification

The bodies of `ErrorCodeMapping`, of the handlers and of the event subscription
are not in the header.  The definitions below follow the written specification
of the adapter (its sections 3, 4, 6, 7 and 8) over the types of the header. -/

/-- Modelled from the spec: the body of `WiFiManager::ErrorCodeMapping`, of
which the header has the declaration only.  The specification describes a pure
`translate(internal_code) -> (legacy_code, ok)` with `ok = false` only outside
the declared range, where the legacy code is `UNKNOWN`.  The mapped range
itself (constants of the backing-service interface) is in neither the header
nor the specification, so it is the parameter `table`: `table ipvalue = none`
says that `ipvalue` is outside the declared mapped range.  The result is the
returned `bool` together with the value written to `opvalue`. -/
def ErrorCodeMapping (table : Nat → Option WiFiErrorCode_t) (ipvalue : Nat) : Bool × Nat :=
  match table ipvalue with
  | some code => (true, code.toNat)
  | none => (false, WiFiErrorCode_t.WIFI_UNKNOWN.toNat)

/-- The three forwarded events, named after the entry points declared at header
lines 120-122. -/
inductive Event where
  | onWiFiStateChange
  | onAvailableSSIDs
  | onWiFiSignalStrengthChange
  deriving DecidableEq, Repr

/-- The data members of a `WiFiManager` instance that the modelled behaviour
reads and writes: whether the remote-link pointer `m_networkmanager` is set, and
the three subscription flags.  `m_service` and `m_timer` play no part in the
modelled behaviour. -/
structure WiFiManager where
  m_networkmanager : Bool
  m_subsWiFiStateChange : Bool
  m_subsAvailableSSIDs : Bool
  m_subsWiFiStrengthChange : Bool
  deriving DecidableEq, Repr

/-- Modelled from the spec: the backing service, which is outside the header.
It is reachable or not, owns the persisted credential record (at most one,
replaced wholesale by each save), and the model records every remote operation
it is asked to perform, the remote subscriptions currently active and every
subscribe call it accepted. -/
structure BackingService where
  reachable : Bool
  stored : Option WIFI_DATA
  invocations : List String
  subscriptions : List Event
  subscribeLog : List Event
  deriving DecidableEq, Repr

/-- Modelled from the spec: an adapter instance, the legacy-side listeners
registered with it (event and listener identity; the header has no member for
them, the JSONRPC base class keeps them), and the backing service it talks
to. -/
structure World where
  adapter : WiFiManager
  listeners : List (Event × Nat)
  backing : BackingService
  deriving DecidableEq, Repr

/-- The subscription flag of an event. -/
def WiFiManager.subscribed (a : WiFiManager) : Event → Bool
  | .onWiFiStateChange => a.m_subsWiFiStateChange
  | .onAvailableSSIDs => a.m_subsAvailableSSIDs
  | .onWiFiSignalStrengthChange => a.m_subsWiFiStrengthChange

/-- Assignment to the subscription flag of an event. -/
def WiFiManager.setSubscribed (a : WiFiManager) (e : Event) (v : Bool) : WiFiManager :=
  match e with
  | .onWiFiStateChange => { a with m_subsWiFiStateChange := v }
  | .onAvailableSSIDs => { a with m_subsAvailableSSIDs := v }
  | .onWiFiSignalStrengthChange => { a with m_subsWiFiStrengthChange := v }

/-- Modelled from the spec: whether some legacy listener is registered for the
event. -/
def World.hasListener (w : World) (e : Event) : Bool :=
  w.listeners.any (fun p => decide (p.1 = e))

/-- Modelled from the spec: the state before any call.  The adapter has no
remote link and its three flags are false (their default), no listener is
registered, the backing service holds no record and has seen no call. -/
def World.initial (reachable : Bool) : World :=
  ⟨⟨false, false, false, false⟩, [], ⟨reachable, none, [], [], []⟩⟩

/-- Modelled from the spec: parameter validation of section 4.5 step 1 with the
bounds of section 6, an SSID of at most `SSID_SIZE` bytes. -/
def validSSID (ssid : String) : Bool := decide (ssid.utf8ByteSize ≤ SSID_SIZE)

/-- Modelled from the spec: parameter validation of section 4.5 step 1 with the
bounds of section 6, a passphrase of at most `WIFI_MAX_PASSWORD_LEN` bytes. -/
def validPassphrase (passphrase : String) : Bool :=
  decide (passphrase.utf8ByteSize ≤ WIFI_MAX_PASSWORD_LEN)

/-- Modelled from the spec: the reshaping of validated legacy parameters into a
Credential Record (section 4.5 step 1, section 3), here the struct `WIFI_DATA`.
Parameters that fail validation give no record; otherwise the two strings are
copied into the character arrays as C strings and the security mode is
converted to `int`, without any check of its value. -/
def toCredentialRecord (ssid passphrase : String) (securityMode : Int) : Option WIFI_DATA :=
  if h : (validSSID ssid && validPassphrase passphrase) = true then
    some ⟨CString.copy cSSID_capacity ssid (by
            simp only [validSSID, validPassphrase, Bool.and_eq_true, decide_eq_true_eq] at h
            simp only [cSSID_capacity]
            omega),
          CString.copy cPassword_capacity passphrase (by
            simp only [validSSID, validPassphrase, Bool.and_eq_true, decide_eq_true_eq] at h
            simp only [cPassword_capacity]
            omega),
          CInt.ofInt securityMode⟩
  else none

/-- Modelled from the spec: the Activation Gate of section 4.2 and the
establishment of the Remote Link of section 4.3 (the header declares
`activatePrimaryPlugin` and the timer without a body).  An established link is
kept (establishment is
idempotent); otherwise the bounded wait ends with the link set when the backing
service is reachable and without a link (`none`) when it is not. -/
def activate (w : World) : Option World :=
  if w.adapter.m_networkmanager then some w
  else if w.backing.reachable then
    some { w with adapter := { w.adapter with m_networkmanager := true } }
  else none

/-- Modelled from the spec: `invoke(operation, request) -> result|fault` of the
Remote Link, section 4.3.  The call reaches a reachable backing service, which
records it; against an unreachable one it is a transport fault (`none`). -/
def remoteInvoke (operation : String) (w : World) : Option World :=
  if w.backing.reachable then
    some { w with backing :=
      { w.backing with invocations := w.backing.invocations ++ [operation] } }
  else none

/-- Modelled from the spec: steps 1 to 3 of the handler template of section
4.5 with the fault kinds of section 7.  Invalid parameters fail with
invalid-parameter before the gate and the link are touched, a gate that
times out fails with not-initialized, a transport fault is the general
failure. -/
def callRemote (valid : Bool) (operation : String) (w : World) : Except WIFI_API_RESULT World :=
  if valid then
    match activate w with
    | none => .error .WIFI_API_RESULT_NOT_INITIALIZED
    | some w1 =>
      match remoteInvoke operation w1 with
      | none => .error .WIFI_API_RESULT_FAILED
      | some w2 => .ok w2
  else .error .WIFI_API_RESULT_INVALID_PARAM

/-- Modelled from the spec: the body of the handler `saveSSID`.  The parameters
are validated and reshaped into a record, with invalid-parameter and no remote
call when validation fails; the record is carried through one remote call and
replaces the stored record of the backing service wholesale. -/
def saveSSID (ssid passphrase : String) (securityMode : Int) (w : World) :
    WIFI_API_RESULT × World :=
  match toCredentialRecord ssid passphrase securityMode with
  | none => (.WIFI_API_RESULT_INVALID_PARAM, w)
  | some d =>
    match callRemote true "saveSSID" w with
    | .error r => (r, w)
    | .ok w1 =>
      (.WIFI_API_RESULT_SUCCESS, { w1 with backing := { w1.backing with stored := some d } })

/-- Modelled from the spec: the body of the handler `connect`, which takes an
SSID and optional credentials (an absent passphrase is the empty string). -/
def connect (ssid passphrase : String) (w : World) : WIFI_API_RESULT × World :=
  match callRemote (validSSID ssid && validPassphrase passphrase) "connect" w with
  | .error r => (r, w)
  | .ok w1 => (.WIFI_API_RESULT_SUCCESS, w1)

/-- Modelled from the spec: the body of the handler `clearSSID`, which removes
the stored record of the backing service. -/
def clearSSID (w : World) : WIFI_API_RESULT × World :=
  match callRemote true "clearSSID" w with
  | .error r => (r, w)
  | .ok w1 => (.WIFI_API_RESULT_SUCCESS, { w1 with backing := { w1.backing with stored := none } })

/-- Modelled from the spec: the body of the handler `getPairedSSIDInfo`.  The
response carries the SSID and the security mode of the stored record, when
there is one; the passphrase is not part of it. -/
def getPairedSSIDInfo (w : World) : WIFI_API_RESULT × Option (String × Int) × World :=
  match callRemote true "getPairedSSIDInfo" w with
  | .error r => (r, none, w)
  | .ok w1 =>
    (.WIFI_API_RESULT_SUCCESS,
     w1.backing.stored.map (fun d => (d.cSSID.val, d.iSecurityMode.val)), w1)

/-- Modelled from the spec: the body of the handler `isPaired`.  The response
carries whether the backing service holds a record. -/
def isPaired (w : World) : WIFI_API_RESULT × Option Bool × World :=
  match callRemote true "isPaired" w with
  | .error r => (r, none, w)
  | .ok w1 => (.WIFI_API_RESULT_SUCCESS, some w1.backing.stored.isSome, w1)

/-- Modelled from the spec: what an invocation of the legacy method
`retrieveSSID` answers, as a function of `ENABLE_GET_WIFI_CREDENTIALS`.  The
header declares the handler only when the flag is defined; the specification
(sections 6, 7 and 8) has the call rejected with operation-not-supported when
it is compiled out; when enabled it returns the stored record, or the
application error `NO_SSID` beside a successful transport status when there is
none. -/
def retrieveSSID (enableGetWifiCredentials : Bool) (w : World) :
    WIFI_API_RESULT × Option WiFiErrorCode_t × Option WIFI_DATA × World :=
  if enableGetWifiCredentials then
    match callRemote true "retrieveSSID" w with
    | .error r => (r, none, none, w)
    | .ok w1 =>
      match w1.backing.stored with
      | some d => (.WIFI_API_RESULT_SUCCESS, none, some d, w1)
      | none => (.WIFI_API_RESULT_SUCCESS, some .WIFI_NO_SSID, none, w1)
  else (.WIFI_API_RESULT_OPERATION_NOT_SUPPORTED, none, none, w)

/-- Modelled from the spec: a legacy listener registers for an event, section
4.4 of the Event Forwarder.  With the flag of the event already set the
listener is only added.  Otherwise the remote subscription is attempted over
the Remote Link: when it succeeds the flag is set and the listener added, when
it fails the state is left as it was and the registering call reports the
failure. -/
def registerListener (e : Event) (listener : Nat) (w : World) : Bool × World :=
  if w.adapter.subscribed e then
    (true, { w with listeners := (e, listener) :: w.listeners })
  else
    match callRemote true "subscribe" w with
    | .error _ => (false, w)
    | .ok w1 =>
      (true,
       ⟨w1.adapter.setSubscribed e true,
        (e, listener) :: w1.listeners,
        { w1.backing with
            subscriptions := e :: w1.backing.subscriptions
            subscribeLog := w1.backing.subscribeLog ++ [e] }⟩)

/-- Modelled from the spec: a legacy listener unregisters from an event,
section 4.4.  The listener is removed; when it was the last one of a subscribed
event the remote subscription is dropped and the flag reset. -/
def unregisterListener (e : Event) (listener : Nat) (w : World) : World :=
  let remaining := w.listeners.erase (e, listener)
  if w.adapter.subscribed e && !(remaining.any (fun p => decide (p.1 = e))) then
    ⟨w.adapter.setSubscribed e false,
     remaining,
     { w.backing with subscriptions := w.backing.subscriptions.erase e }⟩
  else
    { w with listeners := remaining }

/-- The state after the listeners `a` and then `b` registered for the event
`e`. -/
def afterTwoRegistrations (e : Event) (a b : Nat) (w : World) : World :=
  (registerListener e b (registerListener e a w).2).2

end WiFiManagerAPIs

namespace WiFiManagerAPIs

open WiFiErrorCode_t WIFI_API_RESULT

/-- C3: `WiFiErrorCode_t` is a closed set of exactly eight pairwise distinct
values, the eight the specification names; the encoding is injective and its
values are exactly the integers 0 through 7. -/
theorem WiFiErrorCode_t_eight_values_encoded_0_to_7 :
    (∀ c : WiFiErrorCode_t,
        c ∈ [WIFI_SSID_CHANGED, WIFI_CONNECTION_LOST, WIFI_CONNECTION_FAILED,
             WIFI_CONNECTION_INTERRUPTED, WIFI_INVALID_CREDENTIALS, WIFI_NO_SSID,
             WIFI_AUTH_FAILED, WIFI_UNKNOWN])
    ∧ [WIFI_SSID_CHANGED, WIFI_CONNECTION_LOST, WIFI_CONNECTION_FAILED,
       WIFI_CONNECTION_INTERRUPTED, WIFI_INVALID_CREDENTIALS, WIFI_NO_SSID,
       WIFI_AUTH_FAILED, WIFI_UNKNOWN].Nodup
    ∧ [WIFI_SSID_CHANGED, WIFI_CONNECTION_LOST, WIFI_CONNECTION_FAILED,
       WIFI_CONNECTION_INTERRUPTED, WIFI_INVALID_CREDENTIALS, WIFI_NO_SSID,
       WIFI_AUTH_FAILED, WIFI_UNKNOWN].length = 8
    ∧ Function.Injective WiFiErrorCode_t.toNat
    ∧ (∀ n : Nat, n ≤ 7 ↔ ∃ c : WiFiErrorCode_t, c.toNat = n) := by
  refine ⟨?_, by decide, rfl, ?_, ?_⟩
  · intro c; cases c <;> decide
  · intro a b h; cases a <;> cases b <;> first | rfl | exact absurd h (by decide)
  · intro n
    constructor
    · intro h
      interval_cases n
      · exact ⟨WIFI_SSID_CHANGED, rfl⟩
      · exact ⟨WIFI_CONNECTION_LOST, rfl⟩
      · exact ⟨WIFI_CONNECTION_FAILED, rfl⟩
      · exact ⟨WIFI_CONNECTION_INTERRUPTED, rfl⟩
      · exact ⟨WIFI_INVALID_CREDENTIALS, rfl⟩
      · exact ⟨WIFI_NO_SSID, rfl⟩
      · exact ⟨WIFI_UNKNOWN, rfl⟩
      · exact ⟨WIFI_AUTH_FAILED, rfl⟩
    · rintro ⟨c, rfl⟩
      cases c <;> decide

/-- C4: the seven result codes success, general failure, null-parameter,
invalid-parameter, not-initialized, operation-not-supported and
read/write-failed are encoded 0..6 in that order (success as 0), are pairwise
distinct, are all the enumerators apart from the sentinel, and the sentinel
`WIFI_API_RESULT_MAX` is 7, strictly greater than each of them. -/
theorem WIFI_API_RESULT_seven_codes_below_MAX :
    [WIFI_API_RESULT_SUCCESS, WIFI_API_RESULT_FAILED, WIFI_API_RESULT_NULL_PARAM,
     WIFI_API_RESULT_INVALID_PARAM, WIFI_API_RESULT_NOT_INITIALIZED,
     WIFI_API_RESULT_OPERATION_NOT_SUPPORTED,
     WIFI_API_RESULT_READ_WRITE_FAILED].map WIFI_API_RESULT.toNat = [0, 1, 2, 3, 4, 5, 6]
    ∧ [WIFI_API_RESULT_SUCCESS, WIFI_API_RESULT_FAILED, WIFI_API_RESULT_NULL_PARAM,
       WIFI_API_RESULT_INVALID_PARAM, WIFI_API_RESULT_NOT_INITIALIZED,
       WIFI_API_RESULT_OPERATION_NOT_SUPPORTED,
       WIFI_API_RESULT_READ_WRITE_FAILED].Nodup
    ∧ Function.Injective WIFI_API_RESULT.toNat
    ∧ WIFI_API_RESULT_SUCCESS.toNat = 0
    ∧ WIFI_API_RESULT_MAX.toNat = 7
    ∧ (∀ r : WIFI_API_RESULT,
        r ∈ [WIFI_API_RESULT_SUCCESS, WIFI_API_RESULT_FAILED, WIFI_API_RESULT_NULL_PARAM,
             WIFI_API_RESULT_INVALID_PARAM, WIFI_API_RESULT_NOT_INITIALIZED,
             WIFI_API_RESULT_OPERATION_NOT_SUPPORTED, WIFI_API_RESULT_READ_WRITE_FAILED]
          ↔ r ≠ WIFI_API_RESULT_MAX)
    ∧ (∀ r : WIFI_API_RESULT,
        r ≠ WIFI_API_RESULT_MAX ↔ r.toNat < WIFI_API_RESULT_MAX.toNat) := by
  refine ⟨rfl, by decide, ?_, rfl, rfl, ?_, ?_⟩
  · intro a b h; cases a <;> cases b <;> first | rfl | exact absurd h (by decide)
  · intro r; cases r <;> decide
  · intro r; cases r <;> decide

/-- C5: for either value of `ENABLE_GET_WIFI_CREDENTIALS` the declared surface
holds each of the fifteen unconditional operations exactly once, holds no name
twice, holds `retrieveSSID` exactly when the flag is defined, and so has 15
handlers without the flag and 16 with it. -/
theorem declaredMethods_surface (enableGetWifiCredentials : Bool) :
    (["getCurrentState", "startScan", "stopScan", "getConnectedSSID", "setEnabled",
      "connect", "disconnect", "initiateWPSPairing", "cancelWPSPairing", "saveSSID",
      "clearSSID", "getPairedSSID", "getPairedSSIDInfo", "isPaired",
      "getSupportedSecurityModes"].map
        (fun m => (declaredMethods enableGetWifiCredentials).count m)
      = List.replicate 15 1)
    ∧ (declaredMethods enableGetWifiCredentials).Nodup
    ∧ ("retrieveSSID" ∈ declaredMethods enableGetWifiCredentials
        ↔ enableGetWifiCredentials = true)
    ∧ (declaredMethods enableGetWifiCredentials).length
        = (if enableGetWifiCredentials then 16 else 15) := by
  cases enableGetWifiCredentials <;> decide

/-- C9, as stated, fails: the class does not have four subscription flags. -/
theorem dataMembers_not_four_flags : ¬ (membersOfType MemberType.bool).length = 4 := by
  decide

/-- C9, amended: the private data members of `WiFiManager` are six: exactly
three Boolean subscription flags (`m_subsWiFiStateChange`,
`m_subsAvailableSSIDs`, `m_subsWiFiStrengthChange`), exactly one remote-link
handle (`m_networkmanager`), and beside them the service pointer `m_service`
and the timer `m_timer`. -/
theorem dataMembers_three_flags_and_link :
    membersOfType MemberType.bool
      = ["m_subsWiFiStateChange", "m_subsAvailableSSIDs", "m_subsWiFiStrengthChange"]
    ∧ (membersOfType MemberType.bool).length = 3
    ∧ membersOfType MemberType.smartLinkPointer = ["m_networkmanager"]
    ∧ membersOfType MemberType.shellPointer = ["m_service"]
    ∧ membersOfType MemberType.networkManagerTimer = ["m_timer"]
    ∧ dataMembers.length = 6 := by
  decide

/-- C10: `cSSID` has `SSID_SIZE + 1 = 33` bytes and `cPassword` has
`WIFI_MAX_PASSWORD_LEN + 1 = 65` bytes; an SSID of at most 32 bytes and a
passphrase of at most 64 bytes fit with their terminating NUL, an SSID of 33
bytes and a passphrase of 65 bytes do not. -/
theorem WIFI_DATA_buffers_hold_bounded_strings (ssid passphrase : String)
    (hs : ssid.utf8ByteSize ≤ 32) (hp : passphrase.utf8ByteSize ≤ 64) :
    cSSID_capacity = SSID_SIZE + 1 ∧ cSSID_capacity = 33
    ∧ cPassword_capacity = WIFI_MAX_PASSWORD_LEN + 1 ∧ cPassword_capacity = 65
    ∧ fitsWithNul ssid.utf8ByteSize cSSID_capacity = true
    ∧ fitsWithNul passphrase.utf8ByteSize cPassword_capacity = true
    ∧ fitsWithNul 33 cSSID_capacity = false
    ∧ fitsWithNul 65 cPassword_capacity = false := by
  refine ⟨rfl, rfl, rfl, rfl, ?_, ?_, by decide, by decide⟩
  · simp only [fitsWithNul, cSSID_capacity, SSID_SIZE, decide_eq_true_eq]; omega
  · simp only [fitsWithNul, cPassword_capacity, WIFI_MAX_PASSWORD_LEN, decide_eq_true_eq]; omega

/-- Witness of C10 at the SSID `Home` and the passphrase `secret1`. -/
theorem WIFI_DATA_buffers_hold_bounded_strings_witness :
    "Home".utf8ByteSize ≤ 32 ∧ "secret1".utf8ByteSize ≤ 64
    ∧ fitsWithNul "Home".utf8ByteSize cSSID_capacity = true
    ∧ fitsWithNul "secret1".utf8ByteSize cPassword_capacity = true :=
  ⟨by decide, by decide,
   (WIFI_DATA_buffers_hold_bounded_strings "Home" "secret1" (by decide) (by decide)).2.2.2.2.1,
   (WIFI_DATA_buffers_hold_bounded_strings "Home" "secret1" (by decide) (by decide)).2.2.2.2.2.1⟩

/-- C1: on the modelled translator, every code outside the mapped range of the
table (every natural number, so every such `uint32` value) is answered, and the
legacy code written to `opvalue` is `WIFI_UNKNOWN`, with the `bool` result
false. -/
theorem ErrorCodeMapping_unmapped_is_UNKNOWN (table : Nat → Option WiFiErrorCode_t)
    (ipvalue : Nat) (hunmapped : table ipvalue = none) :
    ErrorCodeMapping table ipvalue = (false, WIFI_UNKNOWN.toNat)
    ∧ (ErrorCodeMapping table ipvalue).2 = 6 := by
  simp [ErrorCodeMapping, hunmapped, WiFiErrorCode_t.toNat]

/-- Witness of C1: a table that maps the codes 0 and 1 only, asked about the
code 4294967295. -/
theorem ErrorCodeMapping_unmapped_is_UNKNOWN_witness :
    ErrorCodeMapping
        (fun n => if n = 0 then some WIFI_SSID_CHANGED
                  else if n = 1 then some WIFI_CONNECTION_LOST else none)
        4294967295
      = (false, 6) :=
  (ErrorCodeMapping_unmapped_is_UNKNOWN
    (fun n => if n = 0 then some WIFI_SSID_CHANGED
              else if n = 1 then some WIFI_CONNECTION_LOST else none)
    4294967295 (by decide)).1

/-! ### Lemmas on the handler template -/

/-- With invalid parameters the template fails before anything else. -/
theorem callRemote_invalid (operation : String) (w : World) :
    callRemote false operation w = .error WIFI_API_RESULT_INVALID_PARAM := by
  simp [callRemote]

/-- With valid parameters the template never answers invalid-parameter. -/
theorem callRemote_valid (operation : String) (w : World) :
    callRemote true operation w ≠ .error WIFI_API_RESULT_INVALID_PARAM := by
  unfold callRemote
  simp only [if_true]
  split
  · simp
  · split <;> simp

/-- Against a reachable backing service a valid call goes through: the link is
set and the operation recorded, nothing else changes. -/
theorem callRemote_reachable (operation : String) (w : World)
    (hr : w.backing.reachable = true) :
    callRemote true operation w
      = .ok ⟨{ w.adapter with m_networkmanager := true },
             w.listeners,
             { w.backing with invocations := w.backing.invocations ++ [operation] }⟩ := by
  obtain ⟨⟨link, f1, f2, f3⟩, ls, ⟨r, st, inv, subs, log⟩⟩ := w
  simp only at hr
  subst hr
  cases link <;> simp [callRemote, activate, remoteInvoke]

/-- Parameters that fail validation give no record. -/
theorem toCredentialRecord_invalid (ssid passphrase : String) (securityMode : Int)
    (hv : (validSSID ssid && validPassphrase passphrase) = false) :
    toCredentialRecord ssid passphrase securityMode = none := by
  simp [toCredentialRecord, hv]

/-- Parameters that pass validation give a record: the SSID and the passphrase
up to their first NUL, and the security mode converted to `int`. -/
theorem toCredentialRecord_valid (ssid passphrase : String) (securityMode : Int)
    (hv : (validSSID ssid && validPassphrase passphrase) = true) :
    ∃ d : WIFI_DATA, toCredentialRecord ssid passphrase securityMode = some d
      ∧ d.cSSID.val = beforeNul ssid ∧ d.cPassword.val = beforeNul passphrase
      ∧ d.iSecurityMode = CInt.ofInt securityMode := by
  simp [toCredentialRecord, hv, CString.copy]

/-- A string without NUL is read as a C string in full. -/
theorem beforeNul_of_noNul (s : String) (h : noNul s = true) : beforeNul s = s := by
  cases s with
  | mk cs =>
    simp only [noNul, List.all_eq_true] at h
    simp only [beforeNul]
    exact congrArg String.mk (List.takeWhile_eq_self_iff.mpr h)

/-- Conversion to `int` keeps a value that is in the range of `int`. -/
theorem CInt.ofInt_val_of_inRange (x : Int) (hmin : INT_MIN ≤ x) (hmax : x ≤ INT_MAX) :
    (CInt.ofInt x).val = x := by
  simp only [INT_MIN, INT_MAX] at hmin hmax
  simp only [CInt.ofInt]
  omega

/-- C2: an SSID of at most 32 bytes with a passphrase of at most 64 bytes
passes validation, and the handlers that take them (`saveSSID`, `connect`) do
not answer invalid-parameter; with an SSID above 32 bytes (33 in particular) or
a passphrase above 64 bytes (65 in particular) they answer
`WIFI_API_RESULT_INVALID_PARAM`, leave the whole state as it was and so add no
remote invocation. -/
theorem validation_at_length_bounds (ssid passphrase : String) (securityMode : Int)
    (w : World) :
    SSID_SIZE = 32 ∧ WIFI_MAX_PASSWORD_LEN = 64
    ∧ (ssid.utf8ByteSize ≤ SSID_SIZE ∧ passphrase.utf8ByteSize ≤ WIFI_MAX_PASSWORD_LEN →
        (validSSID ssid && validPassphrase passphrase) = true
        ∧ (saveSSID ssid passphrase securityMode w).1 ≠ WIFI_API_RESULT_INVALID_PARAM
        ∧ (connect ssid passphrase w).1 ≠ WIFI_API_RESULT_INVALID_PARAM)
    ∧ (SSID_SIZE < ssid.utf8ByteSize ∨ WIFI_MAX_PASSWORD_LEN < passphrase.utf8ByteSize →
        (validSSID ssid && validPassphrase passphrase) = false
        ∧ saveSSID ssid passphrase securityMode w = (WIFI_API_RESULT_INVALID_PARAM, w)
        ∧ connect ssid passphrase w = (WIFI_API_RESULT_INVALID_PARAM, w)
        ∧ (saveSSID ssid passphrase securityMode w).2.backing.invocations
            = w.backing.invocations
        ∧ (connect ssid passphrase w).2.backing.invocations = w.backing.invocations) := by
  refine ⟨rfl, rfl, ?_, ?_⟩
  · rintro ⟨hs, hp⟩
    have hv : (validSSID ssid && validPassphrase passphrase) = true := by
      simp [validSSID, validPassphrase, hs, hp]
    refine ⟨hv, ?_, ?_⟩
    · have hne := callRemote_valid "saveSSID" w
      obtain ⟨d, hd, -⟩ := toCredentialRecord_valid ssid passphrase securityMode hv
      simp only [saveSSID, hd]
      cases hc : callRemote true "saveSSID" w with
      | error r => intro hr; exact hne (by rw [hc]; exact congrArg _ hr)
      | ok w1 => simp
    · have hne := callRemote_valid "connect" w
      simp only [connect, hv]
      cases hc : callRemote true "connect" w with
      | error r => intro hr; exact hne (by rw [hc]; exact congrArg _ hr)
      | ok w1 => simp
  · intro h
    have hv : (validSSID ssid && validPassphrase passphrase) = false := by
      simp only [validSSID, validPassphrase, Bool.and_eq_false_iff, decide_eq_false_iff_not,
        not_le]
      exact h
    simp [saveSSID, connect, hv, callRemote_invalid,
      toCredentialRecord_invalid ssid passphrase securityMode hv]

/-- Witness of C2: `Home` with `secret1` is accepted, an SSID of 33 bytes is
rejected by `saveSSID` and a passphrase of 65 bytes is rejected by `connect`,
both without a remote invocation. -/
theorem validation_at_length_bounds_witness :
    (validSSID "Home" && validPassphrase "secret1") = true
    ∧ saveSSID (String.mk (List.replicate 33 'a')) "secret1" 2 (World.initial true)
        = (WIFI_API_RESULT_INVALID_PARAM, World.initial true)
    ∧ connect "Home" (String.mk (List.replicate 65 'p')) (World.initial true)
        = (WIFI_API_RESULT_INVALID_PARAM, World.initial true) :=
  ⟨((validation_at_length_bounds "Home" "secret1" 2 (World.initial true)).2.2.1
      ⟨by decide, by decide⟩).1,
   ((validation_at_length_bounds (String.mk (List.replicate 33 'a')) "secret1" 2
      (World.initial true)).2.2.2 (Or.inl (by decide))).2.1,
   ((validation_at_length_bounds "Home" (String.mk (List.replicate 65 'p')) 2
      (World.initial true)).2.2.2 (Or.inr (by decide))).2.2.1⟩

/-- C6: with `ENABLE_GET_WIFI_CREDENTIALS` not defined the header declares no
handler `retrieveSSID`, and the modelled invocation of the legacy method is
answered with `WIFI_API_RESULT_OPERATION_NOT_SUPPORTED` (the value 5), without
a record, without an application error code and without touching the adapter
or the backing service. -/
theorem retrieveSSID_disabled_not_supported (w : World) :
    "retrieveSSID" ∉ declaredMethods false
    ∧ retrieveSSID false w = (WIFI_API_RESULT_OPERATION_NOT_SUPPORTED, none, none, w)
    ∧ (retrieveSSID false w).1.toNat = 5 := by
  refine ⟨by decide, ?_, ?_⟩ <;> simp [retrieveSSID, WIFI_API_RESULT.toNat]

/-- C8: against a reachable backing service, for every credential record the
struct `WIFI_DATA` can hold (an SSID of at most 32 bytes without NUL, a
passphrase of at most 64 bytes, any security mode in the range of `int`),
saving it succeeds, `getPairedSSIDInfo` then returns the same SSID and the same
security mode, and after `clearSSID` (directly after the save, or after the
query) `isPaired` returns false. -/
theorem saveSSID_roundtrip (ssid passphrase : String) (securityMode : Int) (w : World)
    (hs : ssid.utf8ByteSize ≤ SSID_SIZE)
    (hp : passphrase.utf8ByteSize ≤ WIFI_MAX_PASSWORD_LEN)
    (hnul : noNul ssid = true)
    (hmin : INT_MIN ≤ securityMode) (hmax : securityMode ≤ INT_MAX)
    (hr : w.backing.reachable = true) :
    (saveSSID ssid passphrase securityMode w).1 = WIFI_API_RESULT_SUCCESS
    ∧ (getPairedSSIDInfo (saveSSID ssid passphrase securityMode w).2).1
        = WIFI_API_RESULT_SUCCESS
    ∧ (getPairedSSIDInfo (saveSSID ssid passphrase securityMode w).2).2.1
        = some (ssid, securityMode)
    ∧ (clearSSID (saveSSID ssid passphrase securityMode w).2).1 = WIFI_API_RESULT_SUCCESS
    ∧ (isPaired (clearSSID (saveSSID ssid passphrase securityMode w).2).2).1
        = WIFI_API_RESULT_SUCCESS
    ∧ (isPaired (clearSSID (saveSSID ssid passphrase securityMode w).2).2).2.1 = some false
    ∧ (isPaired (clearSSID
          (getPairedSSIDInfo (saveSSID ssid passphrase securityMode w).2).2.2).2).2.1
        = some false := by
  have hv : (validSSID ssid && validPassphrase passphrase) = true := by
    simp [validSSID, validPassphrase, hs, hp]
  obtain ⟨d, hd, hssid, -, hmode⟩ := toCredentialRecord_valid ssid passphrase securityMode hv
  rw [beforeNul_of_noNul ssid hnul] at hssid
  have hval : d.iSecurityMode.val = securityMode := by
    rw [hmode]; exact CInt.ofInt_val_of_inRange securityMode hmin hmax
  simp [saveSSID, getPairedSSIDInfo, clearSSID, isPaired, hd, callRemote_reachable, hr,
    hssid, hval]

/-- Witness of C8: SSID `Home`, passphrase `secret1`, security mode 2, from the
initial state with the backing service reachable. -/
theorem saveSSID_roundtrip_witness :
    (getPairedSSIDInfo (saveSSID "Home" "secret1" 2 (World.initial true)).2).2.1
        = some ("Home", 2)
    ∧ (isPaired (clearSSID (saveSSID "Home" "secret1" 2 (World.initial true)).2).2).2.1
        = some false :=
  ⟨(saveSSID_roundtrip "Home" "secret1" 2 (World.initial true)
      (by decide) (by decide) (by decide) (by decide) (by decide) rfl).2.2.1,
   (saveSSID_roundtrip "Home" "secret1" 2 (World.initial true)
      (by decide) (by decide) (by decide) (by decide) (by decide) rfl).2.2.2.2.2.1⟩

/-- C7: on each event channel, from a state where the channel is unsubscribed
(flag false, no listener) and the backing service reachable, two distinct
listeners registering both succeed, the flag is true after the first and stays
true, and exactly one remote subscription was made; after either one of the two
unregisters the flag is still true and the remote subscription still active;
after both unregister, in either order, the flag is false and the remote
subscription gone, with still only one subscribe call made in all. -/
theorem subscription_deduplicated (e : Event) (a b : Nat) (w : World)
    (hab : a ≠ b)
    (hflag : w.adapter.subscribed e = false)
    (hnone : w.hasListener e = false)
    (hr : w.backing.reachable = true) :
    (registerListener e a w).1 = true
    ∧ (registerListener e b (registerListener e a w).2).1 = true
    ∧ (registerListener e a w).2.adapter.subscribed e = true
    ∧ (registerListener e a w).2.backing.subscribeLog = w.backing.subscribeLog ++ [e]
    ∧ (afterTwoRegistrations e a b w).adapter.subscribed e = true
    ∧ (afterTwoRegistrations e a b w).backing.subscribeLog = w.backing.subscribeLog ++ [e]
    ∧ (afterTwoRegistrations e a b w).backing.subscriptions = e :: w.backing.subscriptions
    ∧ (unregisterListener e a (afterTwoRegistrations e a b w)).adapter.subscribed e = true
    ∧ (unregisterListener e a (afterTwoRegistrations e a b w)).backing.subscriptions
        = e :: w.backing.subscriptions
    ∧ (unregisterListener e b (afterTwoRegistrations e a b w)).adapter.subscribed e = true
    ∧ (unregisterListener e b (afterTwoRegistrations e a b w)).backing.subscriptions
        = e :: w.backing.subscriptions
    ∧ (unregisterListener e b
        (unregisterListener e a (afterTwoRegistrations e a b w))).adapter.subscribed e = false
    ∧ (unregisterListener e b
        (unregisterListener e a (afterTwoRegistrations e a b w))).backing.subscriptions
        = w.backing.subscriptions
    ∧ (unregisterListener e a
        (unregisterListener e b (afterTwoRegistrations e a b w))).adapter.subscribed e = false
    ∧ (unregisterListener e a
        (unregisterListener e b (afterTwoRegistrations e a b w))).backing.subscriptions
        = w.backing.subscriptions
    ∧ (unregisterListener e b
        (unregisterListener e a (afterTwoRegistrations e a b w))).backing.subscribeLog
        = w.backing.subscribeLog ++ [e] := by
  obtain ⟨⟨link, f1, f2, f3⟩, ls, ⟨r, st, inv, subs, log⟩⟩ := w
  simp only at hr
  subst hr
  simp only [World.hasListener] at hnone
  have hba : b ≠ a := fun h => hab h.symm
  cases e <;> simp only [WiFiManager.subscribed] at hflag <;> subst hflag <;>
    simp [afterTwoRegistrations, registerListener, unregisterListener, callRemote_reachable,
      WiFiManager.subscribed, WiFiManager.setSubscribed, List.erase_cons, hab, hba, hnone]

/-- Witness of C7: the state-change channel, listeners 1 and 2, from the
initial state with the backing service reachable. -/
theorem subscription_deduplicated_witness :
    (afterTwoRegistrations Event.onWiFiStateChange 1 2 (World.initial true)).backing.subscribeLog
        = [Event.onWiFiStateChange]
    ∧ (unregisterListener Event.onWiFiStateChange 1
        (afterTwoRegistrations Event.onWiFiStateChange 1 2
          (World.initial true))).adapter.subscribed Event.onWiFiStateChange = true
    ∧ (unregisterListener Event.onWiFiStateChange 2
        (unregisterListener Event.onWiFiStateChange 1
          (afterTwoRegistrations Event.onWiFiStateChange 1 2
            (World.initial true)))).adapter.subscribed Event.onWiFiStateChange = false :=
  ⟨(subscription_deduplicated Event.onWiFiStateChange 1 2 (World.initial true)
      (by decide) rfl rfl rfl).2.2.2.2.2.1,
   (subscription_deduplicated Event.onWiFiStateChange 1 2 (World.initial true)
      (by decide) rfl rfl rfl).2.2.2.2.2.2.2.1,
   (subscription_deduplicated Event.onWiFiStateChange 1 2 (World.initial true)
      (by decide) rfl rfl rfl).2.2.2.2.2.2.2.2.2.2.2.1⟩

end WiFiManagerAPIs
